import Mathlib

/-!
Verification of the SFM digital board alert core: the server-side alert
generator (Supabase edge function `generate-alerts`) and the client-side
notification dispatcher (`useNotifications` hook).

The embedding is shallow: database tables are lists of records, the
newest-first KPI query result is a list in query order, JS timestamps are
integers in milliseconds, calendar dates are day numbers, and each fallible
store operation carries an explicit failure flag mirroring the
`{ data, error }` results the code destructures.
-/

/-- A row of the joined `kpis` relation (`kpi:kpis(id, name, category_id)`). -/
structure KpiInfo where
  id : String
  name : String
  category_id : Option String
deriving Repr, DecidableEq

/-- A row of `kpi_values` as selected by the generator, with the joined KPI
(the join is nullable: the code guards `if (!kpi) continue`). -/
structure KpiValue where
  id : String
  kpi_id : String
  value : Int
  status : String
  trend : String
  recorded_at : Int
  kpi : Option KpiInfo
deriving Repr, DecidableEq

/-- A row of `actions` as selected by the generator.  `due_date` is a
calendar date; dates are embedded as day numbers ordered like ISO dates. -/
structure ActionRow where
  id : String
  title : String
  due_date : Nat
  priority : String
  status : String
  category_id : Option String
deriving Repr, DecidableEq

/-- A row of `problems` as selected by the generator; `created_at` is a
timestamp in milliseconds. -/
structure Problem where
  id : String
  title : String
  severity : String
  status : String
  category_id : Option String
  created_at : Int
deriving Repr, DecidableEq

/-- A persisted `smart_alerts` row (shape streamed to the dispatcher). -/
structure AlertRow where
  id : String
  type : String
  title : Option String
  message : String
  severity : String
  category_id : Option String
  is_read : Bool
  created_at : Int
  related_id : Option String
  related_type : Option String
deriving Repr, DecidableEq

/-- The `AlertData` candidate record built by the generator before insert. -/
structure AlertData where
  type : String
  title : String
  message : String
  severity : String
  related_id : Option String
  related_type : Option String
  category_id : Option String
deriving Repr, DecidableEq

/-- Per-user notification settings consulted by the dispatcher. -/
structure NotificationSettings where
  email_alerts : Bool
  action_reminders : Bool
  problem_escalation : Bool
  kpi_alerts : Bool
deriving Repr, DecidableEq

/-! ## Notification dispatcher (`useNotifications.tsx`) -/

/-- `shouldNotify` from the realtime insert handler: consult the settings
before showing a toast.  Only the three exact types checked in the code are
ever suppressed. -/
def shouldNotify (s : NotificationSettings) (newAlert : AlertRow) : Bool :=
  if newAlert.type == "kpi_critical" && !s.kpi_alerts then false
  else if newAlert.type == "action_overdue" && !s.action_reminders then false
  else if newAlert.type == "problem_critical" && !s.problem_escalation then false
  else true

/-- `canSeeAlert`: the admin role sees no operational alerts; every other
role (including an absent role) is visible. -/
def canSeeAlert (role : Option String) : Bool :=
  if role == some "admin" then false else true

/-- Urgency tier of the transient UI notification. -/
inductive ToastLevel where
  | error
  | warning
  | info
deriving Repr, DecidableEq

/-- The transient UI notification emitted by the dispatcher. -/
structure Toast where
  level : ToastLevel
  title : String
  message : String
  duration : Nat
deriving Repr, DecidableEq

/-- Severity-to-presentation mapping of the insert handler, including the
`newAlert.title || 'Nouvelle alerte'` fallback (JS `||` treats the empty
string as falsy). -/
def toastFor (a : AlertRow) : Toast :=
  let title := match a.title with
    | some t => if t == "" then "Nouvelle alerte" else t
    | none => "Nouvelle alerte"
  if a.severity == "critical" || a.severity == "high" then
    { level := ToastLevel.error, title := title, message := a.message, duration := 8000 }
  else if a.severity == "warning" || a.severity == "medium" then
    { level := ToastLevel.warning, title := title, message := a.message, duration := 6000 }
  else
    { level := ToastLevel.info, title := title, message := a.message, duration := 5000 }

/-- The realtime insert handler: emits a toast exactly when both the
settings predicate and the role predicate pass. -/
def handleInsertEvent (s : NotificationSettings) (role : Option String)
    (a : AlertRow) : Option Toast :=
  if shouldNotify s a && canSeeAlert role then some (toastFor a) else none

/-- Default settings (all toggles on) used until the user settings load. -/
def defaultSettings : NotificationSettings :=
  { email_alerts := true, action_reminders := true
    problem_escalation := true, kpi_alerts := true }

/-- A sample `kpi_warning` alert row as inserted by the generator. -/
def exKpiWarningRow : AlertRow :=
  { id := "a1", type := "kpi_warning", title := some "KPI en alerte: Scrap Rate"
    message := "m", severity := "high", category_id := none, is_read := false
    created_at := 0, related_id := some "kpi1", related_type := some "kpi" }

/-- A sample `action_overdue` alert row as inserted by the generator. -/
def exOverdueRow : AlertRow :=
  { id := "a2", type := "action_overdue", title := some "Action en retard: T"
    message := "m", severity := "critical", category_id := none, is_read := false
    created_at := 0, related_id := some "act1", related_type := some "action" }

/-! ## Alert generator (edge function `generate-alerts`) -/

/-- `kpi_critical` candidate built for a latest reading with red status. -/
def mkKpiCritical (kpi : KpiInfo) (v : KpiValue) : AlertData :=
  { type := "kpi_critical"
    title := "KPI critique: " ++ kpi.name
    message := "Le KPI \"" ++ kpi.name ++
      "\" est en zone critique (rouge). Valeur actuelle: " ++ toString v.value
    severity := "critical"
    related_id := some v.kpi_id
    related_type := some "kpi"
    category_id := kpi.category_id }

/-- `kpi_warning` candidate built for a latest reading with orange status. -/
def mkKpiWarning (kpi : KpiInfo) (v : KpiValue) : AlertData :=
  { type := "kpi_warning"
    title := "KPI en alerte: " ++ kpi.name
    message := "Le KPI \"" ++ kpi.name ++
      "\" est en zone d\x27alerte (orange). Valeur actuelle: " ++ toString v.value
    severity := "high"
    related_id := some v.kpi_id
    related_type := some "kpi"
    category_id := kpi.category_id }

/-- `kpi_trend` candidate built for a latest reading trending down while not
green. -/
def mkKpiTrend (kpi : KpiInfo) (v : KpiValue) : AlertData :=
  { type := "kpi_trend"
    title := "Tendance négative: " ++ kpi.name
    message := "Le KPI \"" ++ kpi.name ++ "\" montre une tendance à la baisse."
    severity := "medium"
    related_id := some v.kpi_id
    related_type := some "kpi"
    category_id := kpi.category_id }

/-- Candidates emitted for one kept (latest) KPI reading; the nullable join
is guarded exactly like `if (!kpi) continue`.  The three conditions are not
mutually exclusive. -/
def kpiCandidatesOf (v : KpiValue) : List AlertData :=
  match v.kpi with
  | none => []
  | some kpi =>
      (if v.status == "red" then [mkKpiCritical kpi v] else []) ++
      (if v.status == "orange" then [mkKpiWarning kpi v] else []) ++
      (if v.trend == "down" && v.status != "green" then [mkKpiTrend kpi v] else [])

/-- Streaming first-wins reduction over the newest-first query result: the
`Map` keeps only the first value seen per `kpi_id`, in insertion order. -/
def firstWins : List KpiValue → List String → List KpiValue
  | [], _ => []
  | v :: rest, seen =>
      if v.kpi_id ∈ seen then firstWins rest seen
      else v :: firstWins rest (v.kpi_id :: seen)

/-- `latestByKpi` of the KPI pass: one (the newest-first) reading per KPI. -/
def latestByKpi (vs : List KpiValue) : List KpiValue := firstWins vs []

/-- All candidates of the KPI pass. -/
def kpiCandidates (vs : List KpiValue) : List AlertData :=
  (latestByKpi vs).flatMap kpiCandidatesOf

/-- `action_overdue` candidate for an overdue action. -/
def mkOverdueAlert (a : ActionRow) : AlertData :=
  { type := "action_overdue"
    title := "Action en retard: " ++ a.title
    message := "L\x27action \"" ++ a.title ++ "\" est en retard (échéance: " ++
      toString a.due_date ++ ")"
    severity := if a.priority == "urgent" || a.priority == "high" then "critical" else "high"
    related_id := some a.id
    related_type := some "action"
    category_id := a.category_id }

/-- Overdue pass: `due_date < today` and `status <> completed`. -/
def overdueCandidates (today : Nat) (acts : List ActionRow) : List AlertData :=
  (acts.filter (fun a => decide (a.due_date < today) && (a.status != "completed"))).map
    mkOverdueAlert

/-- `action_urgent` candidate for a high/urgent action due today. -/
def mkUrgentAlert (a : ActionRow) : AlertData :=
  { type := "action_urgent"
    title := "Action urgente aujourd\x27hui: " ++ a.title
    message := "L\x27action urgente \"" ++ a.title ++
      "\" doit être terminée aujourd\x27hui."
    severity := "high"
    related_id := some a.id
    related_type := some "action"
    category_id := a.category_id }

/-- Due-today urgent pass: `due_date = today`, priority in urgent/high,
`status <> completed`. -/
def urgentTodayCandidates (today : Nat) (acts : List ActionRow) : List AlertData :=
  (acts.filter (fun a =>
      (a.due_date == today) && (a.priority == "urgent" || a.priority == "high") &&
      (a.status != "completed"))).map mkUrgentAlert

/-- Milliseconds per day (`1000 * 60 * 60 * 24`). -/
def msPerDay : Int := 1000 * 60 * 60 * 24

/-- `Math.floor((Date.now() - createdDate.getTime()) / msPerDay)`: floor
division of the elapsed milliseconds. -/
def daysSinceCreation (now created_at : Int) : Int :=
  Int.fdiv (now - created_at) msPerDay

/-- Problem candidate: age over 3 whole days picks `problem_unresolved`,
otherwise `problem_critical`; severity follows the source severity only. -/
def mkProblemAlert (now : Int) (p : Problem) : AlertData :=
  let isCritical := p.severity == "critical"
  let days := daysSinceCreation now p.created_at
  { type := if 3 < days then "problem_unresolved" else "problem_critical"
    title := "Problème " ++ (if isCritical then "critique" else "important") ++
      ": " ++ p.title
    message := if 3 < days then
        "Le problème \"" ++ p.title ++ "\" n\x27est pas résolu depuis " ++
          toString days ++ " jours."
      else
        "Problème de gravité " ++ (if isCritical then "critique" else "élevée") ++
          ": \"" ++ p.title ++ "\""
    severity := if isCritical then "critical" else "high"
    related_id := some p.id
    related_type := some "problem"
    category_id := p.category_id }

/-- Problems pass: severity in critical/high and `status <> resolved`. -/
def problemCandidates (now : Int) (ps : List Problem) : List AlertData :=
  (ps.filter (fun p =>
      (p.severity == "critical" || p.severity == "high") &&
      (p.status != "resolved"))).map (mkProblemAlert now)

/-- Seven days in milliseconds, the retention threshold. -/
def sevenDaysMs : Int := 7 * 24 * 60 * 60 * 1000

/-- Retention sweep: delete rows with `is_read = true` and
`created_at < now - 7 days`; the remaining rows survive. -/
def retentionSweep (now : Int) (alerts : List AlertRow) : List AlertRow :=
  alerts.filter (fun a => !(a.is_read && decide (a.created_at < now - sevenDaysMs)))

/-- JS template rendering of a possibly absent `related_id`. -/
def optStr : Option String → String
  | some s => s
  | none => "undefined"

/-- The deduplication key string `type ++ "-" ++ related_id`. -/
def alertKey (t : String) (rid : Option String) : String :=
  t ++ "-" ++ optStr rid

/-- Key of a persisted alert row. -/
def rowKey (a : AlertRow) : String := alertKey a.type a.related_id

/-- Key of a candidate record. -/
def candKey (c : AlertData) : String := alertKey c.type c.related_id

/-- The `existingSet`: keys of all currently unread alert rows. -/
def unreadKeysOf (alerts : List AlertRow) : List String :=
  (alerts.filter (fun a => a.is_read == false)).map rowKey

/-- Drop every candidate whose key is already in the existing set. -/
def dedupe (existing : List String) (cands : List AlertData) : List AlertData :=
  cands.filter (fun c => !(existing.contains (candKey c)))

/-- The store state read and written by one generator run. -/
structure Store where
  kpi_values : List KpiValue
  actions : List ActionRow
  problems : List Problem
  smart_alerts : List AlertRow
deriving Repr, DecidableEq

/-- One failure flag per fallible store operation of the run, mirroring the
`{ data, error }` results; `insertErrMsg` is the message of the thrown
insert error. -/
structure Failures where
  kpiFail : Bool
  actionsFail : Bool
  urgentFail : Bool
  problemsFail : Bool
  deleteFail : Bool
  existingFail : Bool
  insertFail : Bool
  insertErrMsg : String
deriving Repr, DecidableEq

/-- All store operations succeed. -/
def noFail : Failures :=
  { kpiFail := false, actionsFail := false, urgentFail := false
    problemsFail := false, deleteFail := false, existingFail := false
    insertFail := false, insertErrMsg := "" }

/-- JSON body of the function response. -/
inductive ResponseBody where
  | okSummary (totalChecked newAlertsCreated duplicatesSkipped : Nat)
  | authError (error : String)
  | runError (error : String)
deriving Repr, DecidableEq

/-- HTTP response of the function. -/
structure HttpResponse where
  status : Nat
  body : ResponseBody
deriving Repr, DecidableEq

/-- `alertsToCreate` after the four candidate passes: a failed read
contributes zero candidates from its domain, in source push order. -/
def candidateAlerts (fl : Failures) (now : Int) (today : Nat) (st : Store) :
    List AlertData :=
  (if fl.kpiFail then [] else kpiCandidates st.kpi_values) ++
  (if fl.actionsFail then [] else overdueCandidates today st.actions) ++
  (if fl.urgentFail then [] else urgentTodayCandidates today st.actions) ++
  (if fl.problemsFail then [] else problemCandidates now st.problems)

/-- Row inserted for a surviving candidate: `{...alert, is_read: false}`,
with the store filling id and creation timestamp. -/
def rowOf (now : Int) (c : AlertData) : AlertRow :=
  { id := "", type := c.type, title := some c.title, message := c.message
    severity := c.severity, category_id := c.category_id, is_read := false
    created_at := now, related_id := c.related_id, related_type := c.related_type }

/-- Alerts left after the best-effort retention sweep: untouched when the
delete fails (the failure is only logged). -/
def sweptAlertsOf (fl : Failures) (now : Int) (st : Store) : List AlertRow :=
  if fl.deleteFail then st.smart_alerts else retentionSweep now st.smart_alerts

/-- The `existingSet` read after the sweep: empty when the unread-alerts
read fails (`existingAlerts?.map(...) || []`). -/
def existingSetOf (fl : Failures) (now : Int) (st : Store) : List String :=
  if fl.existingFail then [] else unreadKeysOf (sweptAlertsOf fl now st)

/-- `newAlerts`: the candidates surviving deduplication. -/
def newAlertsOf (fl : Failures) (now : Int) (today : Nat) (st : Store) :
    List AlertData :=
  dedupe (existingSetOf fl now st) (candidateAlerts fl now today st)

/-- One authorized generator run: candidate passes, best-effort retention
sweep, deduplication against unread keys, batch insert (skipped when empty,
fatal when it fails), and the summary response. -/
def generateAlerts (fl : Failures) (now : Int) (today : Nat) (st : Store) :
    HttpResponse × Store :=
  let alertsToCreate := candidateAlerts fl now today st
  let newAlerts := newAlertsOf fl now today st
  if decide (0 < newAlerts.length) && fl.insertFail then
    ({ status := 500, body := ResponseBody.runError fl.insertErrMsg },
     { st with smart_alerts := sweptAlertsOf fl now st })
  else
    ({ status := 200
       body := ResponseBody.okSummary alertsToCreate.length newAlerts.length
         (alertsToCreate.length - newAlerts.length) },
     { st with smart_alerts := sweptAlertsOf fl now st ++ newAlerts.map (rowOf now) })

/-- Result of the `.single()` role query: an error, or role data that may
itself be absent. -/
inductive RoleLookup where
  | err (msg : String)
  | ok (roleData : Option String)
deriving Repr, DecidableEq

/-- The caller-side facts the authorization prelude observes: the
Authorization header, the authenticated user (none when `getUser` errors or
returns no user), and the role lookup result. -/
structure AuthRequest where
  authHeader : Option String
  authUser : Option String
  roleLookup : RoleLookup
deriving Repr, DecidableEq

/-- An early authorization error response. -/
def authErrResponse (code : Nat) (msg : String) : HttpResponse :=
  { status := code, body := ResponseBody.authError msg }

/-- Authorization prelude of the function: returns the early error response,
or `none` when the caller holds the admin or manager role. -/
def authCheck (req : AuthRequest) : Option HttpResponse :=
  match req.authHeader with
  | none => some (authErrResponse 401 "Unauthorized - missing authorization header")
  | some _ =>
    match req.authUser with
    | none => some (authErrResponse 401 "Unauthorized - invalid token")
    | some _ =>
      match req.roleLookup with
      | RoleLookup.err _ => some (authErrResponse 403 "Forbidden - unable to verify role")
      | RoleLookup.ok rd =>
        match rd with
        | none => some (authErrResponse 403 "Forbidden - admin or manager role required")
        | some r =>
          if r == "admin" || r == "manager" then none
          else some (authErrResponse 403 "Forbidden - admin or manager role required")

/-- The whole request handler: fail-fast authorization, then the run. -/
def handleRequest (req : AuthRequest) (fl : Failures) (now : Int) (today : Nat)
    (st : Store) : HttpResponse × Store :=
  match authCheck req with
  | some resp => (resp, st)
  | none => generateAlerts fl now today st

/-- `newAlertsCreated` field of a success response. -/
def newAlertsCreatedOf (r : HttpResponse) : Option Nat :=
  match r.body with
  | ResponseBody.okSummary _ n _ => some n
  | _ => none

/-- `totalChecked` field of a success response. -/
def totalCheckedOf (r : HttpResponse) : Option Nat :=
  match r.body with
  | ResponseBody.okSummary t _ _ => some t
  | _ => none

/-! ## Verification-support definitions -/

/-- Number of candidates in `l` of alert type `t` related to entity `rid`. -/
def countFor (l : List AlertData) (t : String) (rid : String) : Nat :=
  (l.filter (fun c => c.type == t && c.related_id == some rid)).length

/-- Strings free of the `-` separator of deduplication keys; every alert
type emitted by the generator satisfies it, which makes the key rendering
injective. -/
def noDash (s : String) : Prop := '-' ∉ s.data

/-- The (type, rendered related id) pair a deduplication key encodes. -/
def candPair (c : AlertData) : String × String := (c.type, optStr c.related_id)

/-- Unread-alert invariant: at most one unread alert per (type, related id)
key. -/
def unreadUnique (alerts : List AlertRow) : Prop := (unreadKeysOf alerts).Nodup

/-! ## Concrete example inputs -/

/-- Example KPI master row. -/
def exKpi : KpiInfo := { id := "k1", name := "Scrap Rate", category_id := none }

/-- Newest reading of `exKpi`: orange, trending down. -/
def exOrangeReading : KpiValue :=
  { id := "v1", kpi_id := "k1", value := 5, status := "orange", trend := "down"
    recorded_at := 100, kpi := some exKpi }

/-- Older reading of `exKpi`: red. -/
def exRedReading : KpiValue :=
  { id := "v2", kpi_id := "k1", value := 9, status := "red", trend := "down"
    recorded_at := 50, kpi := some exKpi }

/-- Example action due on day 9 with urgent priority, still to do. -/
def exAction : ActionRow :=
  { id := "a1", title := "Fix guard", due_date := 9, priority := "urgent"
    status := "todo", category_id := none }

/-- Example critical unresolved problem created at timestamp 0. -/
def exProblem : Problem :=
  { id := "p1", title := "Machine down", severity := "critical", status := "open"
    category_id := none, created_at := 0 }

/-- 3 days and 1 hour in milliseconds. -/
def threeDaysOneHourMs : Int := 3 * 86400000 + 3600000

/-- Example store exercising every pass. -/
def exStore : Store :=
  { kpi_values := [exOrangeReading, exRedReading], actions := [exAction]
    problems := [exProblem], smart_alerts := [] }

/-- A read alert created at timestamp 0 (8 days before `exNow`). -/
def exOldReadRow : AlertRow :=
  { id := "r1", type := "kpi_critical", title := some "t", message := "m"
    severity := "critical", category_id := none, is_read := true
    created_at := 0, related_id := some "k9", related_type := some "kpi" }

/-- A read alert created 6 days before `exNow`. -/
def exRecentReadRow : AlertRow :=
  { id := "r2", type := "kpi_critical", title := some "t", message := "m"
    severity := "critical", category_id := none, is_read := true
    created_at := 2 * 86400000, related_id := some "k8", related_type := some "kpi" }

/-- Example invocation time: 8 days after timestamp 0. -/
def exNow : Int := 8 * 86400000

/-- Store holding one 8-day-old and one 6-day-old read alert. -/
def exRetentionStore : Store :=
  { kpi_values := [], actions := [], problems := []
    smart_alerts := [exOldReadRow, exRecentReadRow] }

/-- An unread alert whose key collides with the candidate of `exAction`. -/
def exDupUnreadRow : AlertRow :=
  { id := "r3", type := "action_overdue", title := some "t", message := "m"
    severity := "critical", category_id := none, is_read := false
    created_at := exNow, related_id := some "a1", related_type := some "action" }

/-- Store where the overdue candidate for `exAction` already has an unread
alert, so a failed dedup read duplicates it. -/
def exDupStore : Store :=
  { kpi_values := [], actions := [exAction], problems := []
    smart_alerts := [exDupUnreadRow] }
/-- Request with no Authorization header. -/
def exReqNoHeader : AuthRequest :=
  { authHeader := none, authUser := none, roleLookup := RoleLookup.ok none }

/-- Request with a header but an invalid credential. -/
def exReqBadToken : AuthRequest :=
  { authHeader := some "Bearer x", authUser := none, roleLookup := RoleLookup.ok none }

/-- Authenticated request whose role lookup fails. -/
def exReqRoleErr : AuthRequest :=
  { authHeader := some "Bearer x", authUser := some "u1"
    roleLookup := RoleLookup.err "no row" }

/-- Authenticated request with the operator role. -/
def exReqOperator : AuthRequest :=
  { authHeader := some "Bearer x", authUser := some "u1"
    roleLookup := RoleLookup.ok (some "operator") }

/-- Failure profile of a run where only the unread-alerts read fails. -/
def existingFailOnly : Failures := { noFail with existingFail := true }

/-- Failure profile of a run where only the retention delete fails. -/
def deleteFailOnly : Failures := { noFail with deleteFail := true }

/-- Failure profile where only the KPI-values read fails. -/
def kpiFailOnly : Failures := { noFail with kpiFail := true }

/-- Failure profile where only the overdue-actions read fails. -/
def actionsFailOnly : Failures := { noFail with actionsFail := true }

/-- Failure profile where only the urgent-today-actions read fails. -/
def urgentFailOnly : Failures := { noFail with urgentFail := true }

/-- Failure profile where only the problems read fails. -/
def problemsFailOnly : Failures := { noFail with problemsFail := true }

/-- Failure profile where only the final batch insert fails, with the given
error message. -/
def insertFailWith (msg : String) : Failures :=
  { noFail with insertFail := true, insertErrMsg := msg }

/-- Example action due on day 10 already completed. -/
def exDoneAction : ActionRow :=
  { id := "a2", title := "Done task", due_date := 10, priority := "high"
    status := "completed", category_id := none }

/-! ## Claim theorems -/

/-- C1 counterexample: with `kpi_alerts = false` the code still notifies for
a `kpi_warning` insert event on a non-admin session — `shouldNotify` checks
only the exact type `kpi_critical`, so the claimed suppression of
`kpi_warning` (and `kpi_trend`, `action_urgent`, `problem_unresolved`) does
not happen. -/
theorem kpi_warning_notifies_despite_kpi_alerts_off :
    shouldNotify
      { email_alerts := true, action_reminders := true
        problem_escalation := true, kpi_alerts := false } exKpiWarningRow = true ∧
    (handleInsertEvent
      { email_alerts := true, action_reminders := true
        problem_escalation := true, kpi_alerts := false }
      (some "manager") exKpiWarningRow).isSome = true := by
  constructor <;> rfl

/-- C1 (amended): the notify predicate suppresses exactly the type
`kpi_critical` when `kpi_alerts` is false, `action_overdue` when
`action_reminders` is false, and `problem_critical` when
`problem_escalation` is false; every other type (in particular
`kpi_warning`, `kpi_trend`, `action_urgent` and `problem_unresolved`)
always notifies, and the insert handler toasts exactly when the notify and
visibility predicates both pass. -/
theorem shouldNotify_suppression_characterization
    (s : NotificationSettings) (a : AlertRow) :
    (shouldNotify s a = false ↔
      (a.type = "kpi_critical" ∧ s.kpi_alerts = false) ∨
      (a.type = "action_overdue" ∧ s.action_reminders = false) ∨
      (a.type = "problem_critical" ∧ s.problem_escalation = false)) ∧
    (∀ role : Option String,
      (handleInsertEvent s role a).isSome = (shouldNotify s a && canSeeAlert role)) := by
  constructor
  · unfold shouldNotify
    split_ifs with h1 h2 h3 <;>
      simp_all [Bool.and_eq_true, beq_iff_eq, Bool.not_eq_true']
  · intro role
    unfold handleInsertEvent
    split <;> simp_all

/-- C9: an admin session never receives a transient notification for any
incoming alert insert event, regardless of settings; every non-admin role
passes the visibility predicate. -/
theorem admin_never_notified (s : NotificationSettings) (a : AlertRow) :
    handleInsertEvent s (some "admin") a = none ∧
    (∀ role : Option String, role ≠ some "admin" → canSeeAlert role = true) := by
  constructor
  · unfold handleInsertEvent canSeeAlert
    simp
  · intro role hr
    unfold canSeeAlert
    simp_all

/-- C9 witness: concrete admin session with an `action_overdue` event and
all settings enabled gets no toast; a manager role passes visibility. -/
theorem admin_never_notified_witness :
    handleInsertEvent defaultSettings (some "admin") exOverdueRow = none ∧
    canSeeAlert (some "manager") = true :=
  ⟨(admin_never_notified defaultSettings exOverdueRow).1,
   (admin_never_notified defaultSettings exOverdueRow).2 (some "manager") (by decide)⟩


/-! ## Generator run shape lemmas -/

/-- When the final insert does not fail, the run answers 200 with the
summary counts. -/
theorem generateAlerts_resp_ok (fl : Failures) (now : Int) (today : Nat)
    (st : Store) (h : fl.insertFail = false) :
    (generateAlerts fl now today st).1 =
      { status := 200
        body := ResponseBody.okSummary (candidateAlerts fl now today st).length
          (newAlertsOf fl now today st).length
          ((candidateAlerts fl now today st).length -
            (newAlertsOf fl now today st).length) } := by
  unfold generateAlerts
  simp [h]

/-- When the final insert does not fail, the run status is 200. -/
theorem generateAlerts_status_ok (fl : Failures) (now : Int) (today : Nat)
    (st : Store) (h : fl.insertFail = false) :
    (generateAlerts fl now today st).1.status = 200 := by
  rw [generateAlerts_resp_ok fl now today st h]

/-- When the final insert does not fail, the resulting store keeps the swept
alerts and appends the inserted rows. -/
theorem generateAlerts_store_ok (fl : Failures) (now : Int) (today : Nat)
    (st : Store) (h : fl.insertFail = false) :
    (generateAlerts fl now today st).2 =
      { st with smart_alerts :=
          sweptAlertsOf fl now st ++ (newAlertsOf fl now today st).map (rowOf now) } := by
  unfold generateAlerts
  simp [h]

/-- C2 counterexample: a critical unresolved problem created 3 days and 1
hour before invocation is classified `problem_critical`, not
`problem_unresolved` as claimed: its floor-day age is 3, which does not
exceed 3. -/
theorem problem_3d1h_classified_critical :
    ((problemCandidates threeDaysOneHourMs [exProblem]).map AlertData.type) =
      ["problem_critical"] ∧
    daysSinceCreation threeDaysOneHourMs exProblem.created_at = 3 := by
  constructor <;> rfl

/-- C2 (amended): every unresolved problem of severity critical or high
yields one candidate whose type is `problem_unresolved` exactly when the
floor of elapsed time divided by one day exceeds 3 — so readings at both 3
days 0 hours and 3 days 1 hour classify as `problem_critical`, and
`problem_unresolved` starts at 4 full days of age. -/
theorem problem_age_classification (now : Int) (ps : List Problem) (p : Problem)
    (hp : p ∈ ps)
    (hsev : p.severity = "critical" ∨ p.severity = "high")
    (hst : p.status ≠ "resolved") :
    mkProblemAlert now p ∈ problemCandidates now ps ∧
    (mkProblemAlert now p).type =
      (if 3 < daysSinceCreation now p.created_at then "problem_unresolved"
       else "problem_critical") := by
  constructor
  · unfold problemCandidates
    apply List.mem_map_of_mem
    apply List.mem_filter.mpr
    refine ⟨hp, ?_⟩
    rcases hsev with h | h <;> simp [h, hst]
  · rfl

/-- C2 witness: the amended classification applied at the 3-days-1-hour
boundary input, where the candidate is emitted and typed `problem_critical`. -/
theorem problem_age_classification_witness :
    mkProblemAlert threeDaysOneHourMs exProblem ∈
      problemCandidates threeDaysOneHourMs [exProblem] ∧
    (mkProblemAlert threeDaysOneHourMs exProblem).type =
      (if 3 < daysSinceCreation threeDaysOneHourMs exProblem.created_at
       then "problem_unresolved" else "problem_critical") :=
  problem_age_classification threeDaysOneHourMs [exProblem] exProblem
    (by decide) (Or.inl (by decide)) (by decide)

/-- C8: the handler fails fast on authorization before any alert-domain data
access: each of the four failure cases returns its exact status code and
message and leaves the store untouched. -/
theorem auth_fail_fast_responses (fl : Failures) (now : Int) (today : Nat)
    (st : Store) :
    (∀ req : AuthRequest, req.authHeader = none →
      handleRequest req fl now today st =
        (authErrResponse 401 "Unauthorized - missing authorization header", st)) ∧
    (∀ req : AuthRequest, req.authHeader ≠ none → req.authUser = none →
      handleRequest req fl now today st =
        (authErrResponse 401 "Unauthorized - invalid token", st)) ∧
    (∀ (req : AuthRequest) (m : String), req.authHeader ≠ none →
      req.authUser ≠ none → req.roleLookup = RoleLookup.err m →
      handleRequest req fl now today st =
        (authErrResponse 403 "Forbidden - unable to verify role", st)) ∧
    (∀ (req : AuthRequest) (r : String), req.authHeader ≠ none →
      req.authUser ≠ none → req.roleLookup = RoleLookup.ok (some r) →
      r ≠ "admin" → r ≠ "manager" →
      handleRequest req fl now today st =
        (authErrResponse 403 "Forbidden - admin or manager role required", st)) := by
  refine ⟨?_, ?_, ?_, ?_⟩
  · rintro ⟨ah, au, rl⟩ h
    subst h
    rfl
  · rintro ⟨ah, au, rl⟩ hh hu
    subst hu
    cases ah with
    | none => exact absurd rfl hh
    | some h => rfl
  · rintro ⟨ah, au, rl⟩ m hh hu hr
    subst hr
    cases ah with
    | none => exact absurd rfl hh
    | some h =>
      cases au with
      | none => exact absurd rfl hu
      | some u => rfl
  · rintro ⟨ah, au, rl⟩ r hh hu hr hadm hman
    subst hr
    cases ah with
    | none => exact absurd rfl hh
    | some h =>
      cases au with
      | none => exact absurd rfl hu
      | some u =>
        simp only [handleRequest, authCheck]
        rw [if_neg]
        simp [hadm, hman]

/-- C8 witness: the four authorization failures exercised on concrete
requests against the example store. -/
theorem auth_fail_fast_responses_witness :
    handleRequest exReqNoHeader noFail 0 0 exStore =
      (authErrResponse 401 "Unauthorized - missing authorization header", exStore) ∧
    handleRequest exReqBadToken noFail 0 0 exStore =
      (authErrResponse 401 "Unauthorized - invalid token", exStore) ∧
    handleRequest exReqRoleErr noFail 0 0 exStore =
      (authErrResponse 403 "Forbidden - unable to verify role", exStore) ∧
    handleRequest exReqOperator noFail 0 0 exStore =
      (authErrResponse 403 "Forbidden - admin or manager role required", exStore) :=
  ⟨(auth_fail_fast_responses noFail 0 0 exStore).1 exReqNoHeader rfl,
   (auth_fail_fast_responses noFail 0 0 exStore).2.1 exReqBadToken
     (by decide) rfl,
   (auth_fail_fast_responses noFail 0 0 exStore).2.2.1 exReqRoleErr "no row"
     (by decide) (by decide) rfl,
   (auth_fail_fast_responses noFail 0 0 exStore).2.2.2 exReqOperator "operator"
     (by decide) (by decide) rfl (by decide) (by decide)⟩

/-- Deduplication against an empty existing set keeps every candidate. -/
theorem dedupe_nil (cands : List AlertData) : dedupe [] cands = cands := by
  unfold dedupe
  simp

/-- C10: when the unread-alerts (deduplication) read fails, the failure only
empties the existing-key set, so every candidate of the run is inserted; in
consequence a run with a failed dedup read can break the
at-most-one-unread-alert-per-key invariant even from a store satisfying it
(witnessed by a concrete store), so the invariant and second-run idempotence
are only guaranteed on runs where this read succeeds. -/
theorem dedup_read_failure_inserts_all (now : Int) (today : Nat) (st : Store) :
    newAlertsOf existingFailOnly now today st =
      candidateAlerts existingFailOnly now today st ∧
    newAlertsCreatedOf (generateAlerts existingFailOnly now today st).1 =
      some (candidateAlerts existingFailOnly now today st).length ∧
    (unreadUnique exDupStore.smart_alerts ∧
      ¬ unreadUnique ((generateAlerts existingFailOnly exNow 10 exDupStore).2).smart_alerts) := by
  have hall : newAlertsOf existingFailOnly now today st =
      candidateAlerts existingFailOnly now today st := by
    unfold newAlertsOf existingSetOf
    rw [if_pos (show existingFailOnly.existingFail = true from rfl), dedupe_nil]
  refine ⟨hall, ?_, ?_⟩
  · rw [generateAlerts_resp_ok existingFailOnly now today st rfl]
    unfold newAlertsCreatedOf
    rw [hall]
  · constructor
    · unfold unreadUnique
      decide
    · unfold unreadUnique
      decide

/-- Membership in the retention sweep result: a row survives unless it is
read and older than seven days. -/
theorem mem_retentionSweep (now : Int) (l : List AlertRow) (a : AlertRow) :
    a ∈ retentionSweep now l ↔
      a ∈ l ∧ ¬(a.is_read = true ∧ a.created_at < now - sevenDaysMs) := by
  unfold retentionSweep
  rw [List.mem_filter]
  constructor
  · rintro ⟨hm, hp⟩
    refine ⟨hm, ?_⟩
    rintro ⟨hread, hold⟩
    rw [hread, decide_eq_true hold] at hp
    exact absurd hp (by decide)
  · rintro ⟨hm, hp⟩
    refine ⟨hm, ?_⟩
    rcases hr : a.is_read with _ | _
    · rfl
    · have hold : ¬ a.created_at < now - sevenDaysMs := fun h => hp ⟨hr, h⟩
      rw [decide_eq_false hold]
      rfl

/-- C6: the generator run deletes exactly the alert rows that are both read
and created more than 7 days before invocation, and a failing delete does
not abort the run. -/
theorem retention_deletes_exactly_old_read (now : Int) (today : Nat)
    (st : Store) (a : AlertRow) (ha : a ∈ st.smart_alerts) :
    (a ∉ ((generateAlerts noFail now today st).2).smart_alerts ↔
      (a.is_read = true ∧ a.created_at < now - sevenDaysMs)) ∧
    (generateAlerts deleteFailOnly now today st).1.status = 200 := by
  have hsw : sweptAlertsOf noFail now st = retentionSweep now st.smart_alerts := rfl
  constructor
  · rw [generateAlerts_store_ok noFail now today st rfl]
    show a ∉ sweptAlertsOf noFail now st ++
      (newAlertsOf noFail now today st).map (rowOf now) ↔ _
    rw [hsw]
    constructor
    · intro hnotin
      by_contra hno
      exact hnotin (List.mem_append_left _ ((mem_retentionSweep now _ a).mpr ⟨ha, hno⟩))
    · rintro ⟨hread, hold⟩ hmem
      rcases List.mem_append.mp hmem with h | h
      · exact ((mem_retentionSweep now _ a).mp h).2 ⟨hread, hold⟩
      · obtain ⟨c, _, hc⟩ := List.mem_map.mp h
        have hfalse : a.is_read = false := by
          rw [← hc]
          rfl
        rw [hread] at hfalse
        exact absurd hfalse (by decide)
  · exact generateAlerts_status_ok deleteFailOnly now today st rfl

/-- C6 witness: in the example retention store at `exNow`, the 8-day-old
read alert is deleted by the run and the 6-day-old read alert is retained,
and a run with a failing delete still answers 200. -/
theorem retention_deletes_exactly_old_read_witness :
    (exOldReadRow ∉ ((generateAlerts noFail exNow 10 exRetentionStore).2).smart_alerts ↔
      (exOldReadRow.is_read = true ∧ exOldReadRow.created_at < exNow - sevenDaysMs)) ∧
    (exRecentReadRow ∉ ((generateAlerts noFail exNow 10 exRetentionStore).2).smart_alerts ↔
      (exRecentReadRow.is_read = true ∧ exRecentReadRow.created_at < exNow - sevenDaysMs)) ∧
    (generateAlerts deleteFailOnly exNow 10 exRetentionStore).1.status = 200 :=
  ⟨(retention_deletes_exactly_old_read exNow 10 exRetentionStore exOldReadRow
      (by decide)).1,
   (retention_deletes_exactly_old_read exNow 10 exRetentionStore exRecentReadRow
      (by decide)).1,
   (retention_deletes_exactly_old_read exNow 10 exRetentionStore exOldReadRow
      (by decide)).2⟩

/-- C7: a read failure on any single candidate domain contributes zero
candidates from that domain while the other passes still contribute and the
run completes with status 200; a failure of the final batch insert (when at
least one candidate survives deduplication) is fatal, answering 500 with
`success: false` and the error message, while the earlier retention delete
is not rolled back. -/
theorem domain_failures_degrade_insert_failure_fatal (now : Int) (today : Nat)
    (st : Store) (msg : String) :
    (candidateAlerts kpiFailOnly now today st =
        overdueCandidates today st.actions ++ urgentTodayCandidates today st.actions ++
          problemCandidates now st.problems ∧
      (generateAlerts kpiFailOnly now today st).1.status = 200) ∧
    (candidateAlerts actionsFailOnly now today st =
        kpiCandidates st.kpi_values ++ urgentTodayCandidates today st.actions ++
          problemCandidates now st.problems ∧
      (generateAlerts actionsFailOnly now today st).1.status = 200) ∧
    (candidateAlerts urgentFailOnly now today st =
        kpiCandidates st.kpi_values ++ overdueCandidates today st.actions ++
          problemCandidates now st.problems ∧
      (generateAlerts urgentFailOnly now today st).1.status = 200) ∧
    (candidateAlerts problemsFailOnly now today st =
        kpiCandidates st.kpi_values ++ overdueCandidates today st.actions ++
          urgentTodayCandidates today st.actions ∧
      (generateAlerts problemsFailOnly now today st).1.status = 200) ∧
    (0 < (newAlertsOf (insertFailWith msg) now today st).length →
      generateAlerts (insertFailWith msg) now today st =
        ({ status := 500, body := ResponseBody.runError msg },
         { st with smart_alerts := retentionSweep now st.smart_alerts })) := by
  refine ⟨⟨?_, generateAlerts_status_ok _ now today st rfl⟩,
    ⟨?_, generateAlerts_status_ok _ now today st rfl⟩,
    ⟨?_, generateAlerts_status_ok _ now today st rfl⟩,
    ⟨?_, generateAlerts_status_ok _ now today st rfl⟩, ?_⟩
  · simp [candidateAlerts, kpiFailOnly, noFail]
  · simp [candidateAlerts, actionsFailOnly, noFail]
  · simp [candidateAlerts, urgentFailOnly, noFail]
  · simp [candidateAlerts, problemsFailOnly, noFail]
  · intro hpos
    unfold generateAlerts
    rw [if_pos]
    · rfl
    · rw [decide_eq_true hpos]
      rfl

/-- C7 witness: on the example store the final-insert failure is fatal with
the error message, and the retention sweep is not rolled back. -/
theorem domain_failures_degrade_witness :
    0 < (newAlertsOf (insertFailWith "db down") threeDaysOneHourMs 10 exStore).length ∧
    generateAlerts (insertFailWith "db down") threeDaysOneHourMs 10 exStore =
      ({ status := 500, body := ResponseBody.runError "db down" },
       { exStore with
          smart_alerts := retentionSweep threeDaysOneHourMs exStore.smart_alerts }) :=
  ⟨by decide,
   (domain_failures_degrade_insert_failure_fatal threeDaysOneHourMs 10 exStore
      "db down").2.2.2.2 (by decide)⟩

/-! ## KPI pass lemmas -/

/-- `countFor` distributes over append. -/
theorem countFor_append (l1 l2 : List AlertData) (t k : String) :
    countFor (l1 ++ l2) t k = countFor l1 t k + countFor l2 t k := by
  unfold countFor
  rw [List.filter_append, List.length_append]

/-- A candidate list whose related ids all differ from `k` counts zero. -/
theorem countFor_eq_zero_of_ne (l : List AlertData) (t k : String)
    (h : ∀ c ∈ l, c.related_id ≠ some k) : countFor l t k = 0 := by
  unfold countFor
  rw [List.length_eq_zero, List.filter_eq_nil_iff]
  intro c hc
  simp [h c hc]

/-- Every candidate emitted for a KPI reading relates to that KPI id. -/
theorem kpiCandidatesOf_related_id (v : KpiValue) (c : AlertData)
    (hc : c ∈ kpiCandidatesOf v) : c.related_id = some v.kpi_id := by
  unfold kpiCandidatesOf at hc
  cases hv : v.kpi with
  | none =>
    rw [hv] at hc
    cases hc
  | some kpi =>
    rw [hv] at hc
    rcases List.mem_append.mp hc with h | h
    · rcases List.mem_append.mp h with h2 | h2
      · split at h2 <;> simp_all [mkKpiCritical]
      · split at h2 <;> simp_all [mkKpiWarning]
    · split at h <;> simp_all [mkKpiTrend]

/-- Once an id is in `seen`, first-wins never emits a reading with it. -/
theorem firstWins_filter_of_mem (vs : List KpiValue) (seen : List String)
    (k : String) (hk : k ∈ seen) :
    (firstWins vs seen).filter (fun v => v.kpi_id == k) = [] := by
  induction vs generalizing seen with
  | nil => rfl
  | cons v rest ih =>
    unfold firstWins
    by_cases h : v.kpi_id ∈ seen
    · rw [if_pos h]
      exact ih seen hk
    · rw [if_neg h, List.filter_cons]
      have hne : ¬ (v.kpi_id == k) = true := by
        intro he
        exact h (beq_iff_eq.mp he ▸ hk)
      rw [if_neg hne]
      exact ih (v.kpi_id :: seen) (List.mem_cons_of_mem _ hk)

/-- For an unseen id, the readings first-wins keeps for it are exactly the
first occurrence in the input order. -/
theorem firstWins_filter_eq_find (vs : List KpiValue) (seen : List String)
    (k : String) (hk : k ∉ seen) :
    (firstWins vs seen).filter (fun v => v.kpi_id == k) =
      (vs.find? (fun v => v.kpi_id == k)).toList := by
  induction vs generalizing seen with
  | nil => rfl
  | cons v rest ih =>
    unfold firstWins
    by_cases h : v.kpi_id ∈ seen
    · have hne : (v.kpi_id == k) = false := by
        rw [Bool.eq_false_iff]
        intro he
        exact hk (beq_iff_eq.mp he ▸ h)
      rw [if_pos h]
      simp only [List.find?_cons, hne]
      exact ih seen hk
    · rw [if_neg h, List.filter_cons]
      by_cases he : (v.kpi_id == k) = true
      · rw [if_pos he]
        simp only [List.find?_cons, he]
        have hempty : (firstWins rest (v.kpi_id :: seen)).filter
            (fun w => w.kpi_id == k) = [] := by
          apply firstWins_filter_of_mem
          rw [beq_iff_eq.mp he]
          exact List.mem_cons_self _ _
        rw [hempty]
        rfl
      · have hne : (v.kpi_id == k) = false := Bool.eq_false_iff.mpr he
        rw [if_neg he]
        simp only [List.find?_cons, hne]
        apply ih
        intro hmem
        rcases List.mem_cons.mp hmem with h2 | h2
        · exact he (beq_iff_eq.mpr h2.symm)
        · exact hk h2

/-- Counting candidates of one KPI over the whole pass reduces to the kept
readings of that KPI. -/
theorem countFor_flatMap_kpi (ws : List KpiValue) (t k : String) :
    countFor (ws.flatMap kpiCandidatesOf) t k =
      countFor ((ws.filter (fun v => v.kpi_id == k)).flatMap kpiCandidatesOf) t k := by
  induction ws with
  | nil => rfl
  | cons w rest ih =>
    rw [List.flatMap_cons, countFor_append, List.filter_cons]
    by_cases h : (w.kpi_id == k) = true
    · rw [if_pos h, List.flatMap_cons, countFor_append, ih]
    · rw [if_neg h, ih]
      have hzero : countFor (kpiCandidatesOf w) t k = 0 := by
        apply countFor_eq_zero_of_ne
        intro c hc heq
        rw [kpiCandidatesOf_related_id w c hc] at heq
        exact h (beq_iff_eq.mpr (Option.some.inj heq))
      rw [hzero]
      omega

/-- The KPI pass count for KPI `k` is decided by the first (newest) reading
of `k` alone. -/
theorem countFor_kpiCandidates (vs : List KpiValue) (t k : String) :
    countFor (kpiCandidates vs) t k =
      (match vs.find? (fun v => v.kpi_id == k) with
       | some v => countFor (kpiCandidatesOf v) t k
       | none => 0) := by
  unfold kpiCandidates latestByKpi
  rw [countFor_flatMap_kpi, firstWins_filter_eq_find vs [] k (by simp)]
  cases h : vs.find? (fun v => v.kpi_id == k) with
  | none => rfl
  | some v =>
    show countFor (kpiCandidatesOf v ++ [].flatMap kpiCandidatesOf) t k = _
    rw [countFor_append]
    rfl

/-- Count of `kpi_critical` candidates emitted for one kept reading. -/
theorem countFor_kpiCandidatesOf_crit (v : KpiValue) :
    countFor (kpiCandidatesOf v) "kpi_critical" v.kpi_id =
      (if v.kpi.isSome && (v.status == "red") then 1 else 0) := by
  unfold kpiCandidatesOf countFor
  cases hv : v.kpi with
  | none => simp
  | some kpi =>
    simp only [Option.isSome_some, Bool.true_and]
    split_ifs with h1 h2 h3 <;>
      simp_all [mkKpiCritical, mkKpiWarning, mkKpiTrend]

/-- Count of `kpi_warning` candidates emitted for one kept reading. -/
theorem countFor_kpiCandidatesOf_warn (v : KpiValue) :
    countFor (kpiCandidatesOf v) "kpi_warning" v.kpi_id =
      (if v.kpi.isSome && (v.status == "orange") then 1 else 0) := by
  unfold kpiCandidatesOf countFor
  cases hv : v.kpi with
  | none => simp
  | some kpi =>
    simp only [Option.isSome_some, Bool.true_and]
    split_ifs with h1 h2 h3 <;>
      simp_all [mkKpiCritical, mkKpiWarning, mkKpiTrend]

/-- Count of `kpi_trend` candidates emitted for one kept reading. -/
theorem countFor_kpiCandidatesOf_trend (v : KpiValue) :
    countFor (kpiCandidatesOf v) "kpi_trend" v.kpi_id =
      (if v.kpi.isSome && (v.trend == "down" && v.status != "green") then 1 else 0) := by
  unfold kpiCandidatesOf countFor
  cases hv : v.kpi with
  | none => simp
  | some kpi =>
    simp only [Option.isSome_some, Bool.true_and]
    split_ifs with h1 h2 h3 <;>
      simp_all [mkKpiCritical, mkKpiWarning, mkKpiTrend]

/-- C4: the KPI pass keeps only the first (newest) reading per KPI, so the
run emits exactly one `kpi_critical` candidate for a KPI exactly when its
newest reading has red status (and a joined KPI), however many older
readings exist; a KPI whose newest reading is orange and trending down
yields one `kpi_warning` and one `kpi_trend` candidate and no
`kpi_critical` candidate. -/
theorem kpi_critical_exactly_once_per_red_latest (vs : List KpiValue) (k : String) :
    (countFor (kpiCandidates vs) "kpi_critical" k =
      (match vs.find? (fun v => v.kpi_id == k) with
       | some v => if v.kpi.isSome && (v.status == "red") then 1 else 0
       | none => 0)) ∧
    (∀ v : KpiValue, vs.find? (fun w => w.kpi_id == k) = some v →
      v.kpi.isSome = true → v.status = "orange" → v.trend = "down" →
      countFor (kpiCandidates vs) "kpi_warning" k = 1 ∧
      countFor (kpiCandidates vs) "kpi_trend" k = 1 ∧
      countFor (kpiCandidates vs) "kpi_critical" k = 0) := by
  constructor
  · rw [countFor_kpiCandidates]
    cases h : vs.find? (fun v => v.kpi_id == k) with
    | none => rfl
    | some v =>
      have hp := List.find?_some h
      have hk : v.kpi_id = k := beq_iff_eq.mp hp
      subst hk
      exact countFor_kpiCandidatesOf_crit v
  · intro v hfind hkpi hstatus htrend
    have hp := List.find?_some hfind
    have hk : v.kpi_id = k := beq_iff_eq.mp hp
    subst hk
    refine ⟨?_, ?_, ?_⟩
    · rw [countFor_kpiCandidates, hfind]
      show countFor (kpiCandidatesOf v) "kpi_warning" v.kpi_id = 1
      rw [countFor_kpiCandidatesOf_warn, hkpi, hstatus]
      rfl
    · rw [countFor_kpiCandidates, hfind]
      show countFor (kpiCandidatesOf v) "kpi_trend" v.kpi_id = 1
      rw [countFor_kpiCandidatesOf_trend, hkpi, hstatus, htrend]
      rfl
    · rw [countFor_kpiCandidates, hfind]
      show countFor (kpiCandidatesOf v) "kpi_critical" v.kpi_id = 0
      rw [countFor_kpiCandidatesOf_crit, hkpi, hstatus]
      rfl

/-- C4 witness: the Scrap Rate scenario — newest reading orange and
trending down over an older red reading yields `kpi_warning` and
`kpi_trend` but no `kpi_critical`. -/
theorem kpi_critical_exactly_once_witness :
    countFor (kpiCandidates [exOrangeReading, exRedReading]) "kpi_warning" "k1" = 1 ∧
    countFor (kpiCandidates [exOrangeReading, exRedReading]) "kpi_trend" "k1" = 1 ∧
    countFor (kpiCandidates [exOrangeReading, exRedReading]) "kpi_critical" "k1" = 0 :=
  (kpi_critical_exactly_once_per_red_latest [exOrangeReading, exRedReading] "k1").2
    exOrangeReading (by decide) (by decide) (by decide) (by decide)

/-! ## Action pass lemmas -/

/-- In a list whose keys are pairwise distinct, filtering for the key of a
member `a` counts exactly `a` itself (subject to the extra condition). -/
theorem length_filter_key_unique {α : Type} (l : List α) (key : α → String)
    (q : α → Bool) (a : α) (ha : a ∈ l) (hnd : (l.map key).Nodup) :
    (l.filter (fun b => (key b == key a) && q b)).length =
      if q a = true then 1 else 0 := by
  induction l with
  | nil => cases ha
  | cons x rest ih =>
    rw [List.map_cons, List.nodup_cons] at hnd
    obtain ⟨hx, hrest⟩ := hnd
    have hzero : ∀ c, c ∈ rest → key c ≠ key x →
        True := fun _ _ _ => trivial
    rcases List.mem_cons.mp ha with rfl | hmem
    · rw [List.filter_cons]
      have hrest0 : (rest.filter (fun b => (key b == key a) && q b)).length = 0 := by
        rw [List.length_eq_zero, List.filter_eq_nil_iff]
        intro b hb
        have hne : key b ≠ key a := fun he => hx (he ▸ List.mem_map_of_mem key hb)
        simp [hne]
      by_cases hq : q a = true
      · rw [if_pos (by simp [hq]), List.length_cons, hrest0, if_pos hq]
      · rw [if_neg (by simp [hq]), hrest0, if_neg hq]
    · rw [List.filter_cons]
      have hne : key x ≠ key a := by
        intro he
        exact hx (he ▸ List.mem_map_of_mem key hmem)
      rw [if_neg (by simp [hne])]
      exact ih hmem hrest

/-- Overdue-pass count for a single action with pairwise distinct ids. -/
theorem countFor_overdue (today : Nat) (acts : List ActionRow) (a : ActionRow)
    (ha : a ∈ acts) (hid : (acts.map ActionRow.id).Nodup) :
    countFor (overdueCandidates today acts) "action_overdue" a.id =
      if (decide (a.due_date < today) && (a.status != "completed")) = true
      then 1 else 0 := by
  unfold countFor overdueCandidates
  rw [List.filter_map, List.length_map, List.filter_filter]
  rw [List.filter_congr (l := acts)
    (q := fun b => (ActionRow.id b == ActionRow.id a) &&
      (decide (b.due_date < today) && (b.status != "completed"))) ?_]
  · exact length_filter_key_unique acts ActionRow.id
      (fun b => decide (b.due_date < today) && (b.status != "completed")) a ha hid
  · intro b hb
    simp [mkOverdueAlert, Bool.and_comm, Bool.and_left_comm, Bool.and_assoc]

/-- Urgent-today-pass count for a single action with pairwise distinct ids. -/
theorem countFor_urgent (today : Nat) (acts : List ActionRow) (a : ActionRow)
    (ha : a ∈ acts) (hid : (acts.map ActionRow.id).Nodup) :
    countFor (urgentTodayCandidates today acts) "action_urgent" a.id =
      if ((a.due_date == today) && (a.priority == "urgent" || a.priority == "high") &&
          (a.status != "completed")) = true then 1 else 0 := by
  unfold countFor urgentTodayCandidates
  rw [List.filter_map, List.length_map, List.filter_filter]
  rw [List.filter_congr (l := acts)
    (q := fun b => (ActionRow.id b == ActionRow.id a) &&
      ((b.due_date == today) && (b.priority == "urgent" || b.priority == "high") &&
        (b.status != "completed"))) ?_]
  · exact length_filter_key_unique acts ActionRow.id
      (fun b => (b.due_date == today) &&
        (b.priority == "urgent" || b.priority == "high") &&
        (b.status != "completed")) a ha hid
  · intro b hb
    simp [mkUrgentAlert, Bool.and_comm, Bool.and_left_comm, Bool.and_assoc]

/-- C5: per action (under distinct action ids): an overdue non-completed
action yields exactly one `action_overdue` candidate, severity critical for
urgent/high priority and high otherwise; an urgent/high action due today
and not completed yields exactly one `action_urgent` candidate of severity
high; a completed action yields no candidate from either pass; and the two
passes never both fire for a single action in one run. -/
theorem action_passes_exactly_one (today : Nat) (acts : List ActionRow)
    (a : ActionRow) (ha : a ∈ acts) (hid : (acts.map ActionRow.id).Nodup) :
    (countFor (overdueCandidates today acts) "action_overdue" a.id =
      if a.due_date < today ∧ a.status ≠ "completed" then 1 else 0) ∧
    (countFor (urgentTodayCandidates today acts) "action_urgent" a.id =
      if a.due_date = today ∧ (a.priority = "urgent" ∨ a.priority = "high") ∧
        a.status ≠ "completed" then 1 else 0) ∧
    (∀ c ∈ overdueCandidates today acts, c.related_id = some a.id →
      c.severity = if a.priority = "urgent" ∨ a.priority = "high"
        then "critical" else "high") ∧
    (∀ c ∈ urgentTodayCandidates today acts, c.related_id = some a.id →
      c.severity = "high") ∧
    ¬(0 < countFor (overdueCandidates today acts) "action_overdue" a.id ∧
      0 < countFor (urgentTodayCandidates today acts) "action_urgent" a.id) := by
  have hover : countFor (overdueCandidates today acts) "action_overdue" a.id =
      if a.due_date < today ∧ a.status ≠ "completed" then 1 else 0 := by
    rw [countFor_overdue today acts a ha hid]
    apply if_congr _ rfl rfl
    simp [bne_iff_ne]
  have hurg : countFor (urgentTodayCandidates today acts) "action_urgent" a.id =
      if a.due_date = today ∧ (a.priority = "urgent" ∨ a.priority = "high") ∧
        a.status ≠ "completed" then 1 else 0 := by
    rw [countFor_urgent today acts a ha hid]
    apply if_congr _ rfl rfl
    simp [bne_iff_ne, and_assoc]
  refine ⟨hover, hurg, ?_, ?_, ?_⟩
  · intro c hc hrel
    obtain ⟨b, hb, rfl⟩ := List.mem_map.mp hc
    have hbacts : b ∈ acts := List.mem_of_mem_filter hb
    have hidb : b.id = a.id := by
      have hrb : (mkOverdueAlert b).related_id = some b.id := rfl
      rw [hrb] at hrel
      exact Option.some.inj hrel
    have hba : b = a := List.inj_on_of_nodup_map hid hbacts ha hidb
    subst hba
    show (if b.priority == "urgent" || b.priority == "high"
      then "critical" else "high") = _
    by_cases hp : b.priority = "urgent" ∨ b.priority = "high"
    · rw [if_pos (by simp [hp]), if_pos hp]
    · rw [if_neg (by simpa using hp), if_neg hp]
  · intro c hc hrel
    obtain ⟨b, hb, rfl⟩ := List.mem_map.mp hc
    rfl
  · rw [hover, hurg]
    rintro ⟨h1, h2⟩
    split_ifs at h1 h2 with hc1 hc2
    · omega
    · omega
    · omega
    · omega

/-- C5 witness: the urgent action due yesterday yields exactly one overdue
candidate (severity critical) and none from the urgent-today pass, and the
completed action due today yields no candidate from either pass. -/
theorem action_passes_exactly_one_witness :
    countFor (overdueCandidates 10 [exAction, exDoneAction]) "action_overdue"
      exAction.id = 1 ∧
    countFor (urgentTodayCandidates 10 [exAction, exDoneAction]) "action_urgent"
      exAction.id = 0 ∧
    countFor (overdueCandidates 10 [exAction, exDoneAction]) "action_overdue"
      exDoneAction.id = 0 ∧
    countFor (urgentTodayCandidates 10 [exAction, exDoneAction]) "action_urgent"
      exDoneAction.id = 0 := by
  obtain ⟨h1, h2, -, -, -⟩ :=
    action_passes_exactly_one 10 [exAction, exDoneAction] exAction
      (by decide) (by decide)
  obtain ⟨h3, h4, -, -, -⟩ :=
    action_passes_exactly_one 10 [exAction, exDoneAction] exDoneAction
      (by decide) (by decide)
  refine ⟨?_, ?_, ?_, ?_⟩
  · rw [h1, if_pos]
    exact ⟨by decide, by decide⟩
  · rw [h2, if_neg]
    rintro ⟨hd, -⟩
    exact absurd hd (by decide)
  · rw [h3, if_neg]
    rintro ⟨-, hd⟩
    exact absurd hd (by decide)
  · rw [h4, if_neg]
    rintro ⟨-, -, hd⟩
    exact absurd hd (by decide)

/-! ## Idempotence lemmas -/

/-- The candidate passes ignore the alerts table, so updating it does not
change the candidates. -/
theorem candidateAlerts_update_alerts (fl : Failures) (now : Int) (today : Nat)
    (st : Store) (x : List AlertRow) :
    candidateAlerts fl now today { st with smart_alerts := x } =
      candidateAlerts fl now today st := rfl

/-- The retention sweep is idempotent. -/
theorem retentionSweep_idem (now : Int) (l : List AlertRow) :
    retentionSweep now (retentionSweep now l) = retentionSweep now l := by
  unfold retentionSweep
  rw [List.filter_filter]
  apply List.filter_congr
  intro a _
  cases h : (!(a.is_read && decide (a.created_at < now - sevenDaysMs))) <;> simp [h]

/-- Freshly inserted rows are unread, hence survive a sweep. -/
theorem retentionSweep_rowOf (now : Int) (cands : List AlertData) :
    retentionSweep now (cands.map (rowOf now)) = cands.map (rowOf now) := by
  unfold retentionSweep
  rw [List.filter_eq_self]
  intro a ha
  obtain ⟨c, _, rfl⟩ := List.mem_map.mp ha
  rfl

/-- The sweep distributes over append. -/
theorem retentionSweep_append (now : Int) (l1 l2 : List AlertRow) :
    retentionSweep now (l1 ++ l2) = retentionSweep now l1 ++ retentionSweep now l2 := by
  unfold retentionSweep
  exact List.filter_append _ _

/-- Unread keys distribute over append. -/
theorem unreadKeysOf_append (l1 l2 : List AlertRow) :
    unreadKeysOf (l1 ++ l2) = unreadKeysOf l1 ++ unreadKeysOf l2 := by
  unfold unreadKeysOf
  rw [List.filter_append, List.map_append]

/-- The unread keys of freshly inserted rows are the candidate keys. -/
theorem unreadKeysOf_rowOf (now : Int) (cands : List AlertData) :
    unreadKeysOf (cands.map (rowOf now)) = cands.map candKey := by
  unfold unreadKeysOf
  rw [List.filter_eq_self.mpr]
  · rw [List.map_map]
    rfl
  · intro a ha
    obtain ⟨c, _, rfl⟩ := List.mem_map.mp ha
    rfl

/-- After a successful run every candidate key of the same store state is
among the unread keys visible to the next run's deduplication read. -/
theorem run_keys_cover (now : Int) (today : Nat) (st : Store) :
    ∀ c ∈ candidateAlerts noFail now today st,
      candKey c ∈ unreadKeysOf (retentionSweep now
        ((generateAlerts noFail now today st).2).smart_alerts) := by
  intro c hc
  rw [generateAlerts_store_ok noFail now today st rfl]
  show candKey c ∈ unreadKeysOf (retentionSweep now
    (sweptAlertsOf noFail now st ++ (newAlertsOf noFail now today st).map (rowOf now)))
  have hsw : sweptAlertsOf noFail now st = retentionSweep now st.smart_alerts := rfl
  rw [retentionSweep_append, hsw, retentionSweep_idem, retentionSweep_rowOf,
    unreadKeysOf_append, unreadKeysOf_rowOf]
  by_cases hmem : candKey c ∈ unreadKeysOf (retentionSweep now st.smart_alerts)
  · exact List.mem_append_left _ hmem
  · apply List.mem_append_right
    apply List.mem_map_of_mem candKey
    unfold newAlertsOf dedupe
    apply List.mem_filter.mpr
    refine ⟨hc, ?_⟩
    have hcont : (existingSetOf noFail now st).contains (candKey c) = false := by
      rw [Bool.eq_false_iff]
      intro habs
      exact hmem (List.elem_iff.mp habs)
    rw [hcont]
    rfl

/-- Running the generator again on the run's output produces no candidate
that survives deduplication. -/
theorem second_run_no_new (now : Int) (today : Nat) (st : Store) :
    newAlertsOf noFail now today ((generateAlerts noFail now today st).2) = [] := by
  unfold newAlertsOf dedupe
  rw [List.filter_eq_nil_iff]
  intro c hc
  have hc0 : c ∈ candidateAlerts noFail now today st := by
    rw [generateAlerts_store_ok noFail now today st rfl] at hc
    exact hc
  have hkey := run_keys_cover now today st c hc0
  have hkey2 : candKey c ∈ existingSetOf noFail now
      ((generateAlerts noFail now today st).2) := hkey
  simpa using hkey2

/-! ## Deduplication-key injectivity -/

/-- A separator-free prefix followed by the separator decomposes uniquely. -/
theorem sep_append_inj (l1 : List Char) (r1 : List Char) (l2 r2 : List Char)
    (h1 : '-' ∉ l1) (h2 : '-' ∉ l2)
    (h : l1 ++ '-' :: r1 = l2 ++ '-' :: r2) : l1 = l2 ∧ r1 = r2 := by
  induction l1 generalizing l2 with
  | nil =>
    cases l2 with
    | nil =>
      rw [List.nil_append, List.nil_append] at h
      exact ⟨rfl, (List.cons.inj h).2⟩
    | cons d ds =>
      rw [List.nil_append] at h
      have hd : '-' = d := (List.cons.inj h).1
      exact absurd (hd ▸ List.mem_cons_self d ds) h2
  | cons c cs ih =>
    cases l2 with
    | nil =>
      rw [List.nil_append] at h
      have hd : c = '-' := (List.cons.inj h).1
      exact absurd (List.mem_cons_self c cs) (hd ▸ h1)
    | cons d ds =>
      obtain ⟨hcd, ht⟩ := List.cons.inj h
      have h1x : '-' ∉ cs := fun hm => h1 (List.mem_cons_of_mem _ hm)
      have h2x : '-' ∉ ds := fun hm => h2 (List.mem_cons_of_mem _ hm)
      obtain ⟨he, hr⟩ := ih ds h1x h2x ht
      exact ⟨by rw [hcd, he], hr⟩

/-- With separator-free types, equal keys force equal types and equal
rendered related ids. -/
theorem alertKey_inj (t1 t2 : String) (r1 r2 : Option String)
    (h1 : noDash t1) (h2 : noDash t2)
    (h : alertKey t1 r1 = alertKey t2 r2) :
    t1 = t2 ∧ optStr r1 = optStr r2 := by
  unfold alertKey at h
  have hd : t1.data ++ '-' :: (optStr r1).data =
      t2.data ++ '-' :: (optStr r2).data := by
    have hc := congrArg String.data h
    have he1 : (t1 ++ "-" ++ optStr r1).data =
        t1.data ++ '-' :: (optStr r1).data := by
      show t1.data ++ ['-'] ++ (optStr r1).data = _
      rw [List.append_assoc]
      rfl
    have he2 : (t2 ++ "-" ++ optStr r2).data =
        t2.data ++ '-' :: (optStr r2).data := by
      show t2.data ++ ['-'] ++ (optStr r2).data = _
      rw [List.append_assoc]
      rfl
    rw [he1, he2] at hc
    exact hc
  obtain ⟨ha, hb⟩ := sep_append_inj t1.data (optStr r1).data t2.data
    (optStr r2).data h1 h2 hd
  exact ⟨String.ext ha, String.ext hb⟩

/-! ## Candidate provenance and key distinctness -/

/-- KPI-pass candidate types. -/
theorem kpiCandidatesOf_type (v : KpiValue) (c : AlertData)
    (hc : c ∈ kpiCandidatesOf v) :
    c.type = "kpi_critical" ∨ c.type = "kpi_warning" ∨ c.type = "kpi_trend" := by
  unfold kpiCandidatesOf at hc
  cases hv : v.kpi with
  | none =>
    rw [hv] at hc
    cases hc
  | some kpi =>
    rw [hv] at hc
    rcases List.mem_append.mp hc with h | h
    · rcases List.mem_append.mp h with h2 | h2
      · split at h2 <;> simp_all [mkKpiCritical]
      · split at h2 <;> simp_all [mkKpiWarning]
    · split at h <;> simp_all [mkKpiTrend]

/-- Overdue-pass candidate type. -/
theorem overdueCandidates_type (today : Nat) (acts : List ActionRow)
    (c : AlertData) (hc : c ∈ overdueCandidates today acts) :
    c.type = "action_overdue" := by
  obtain ⟨b, _, rfl⟩ := List.mem_map.mp hc
  rfl

/-- Urgent-today-pass candidate type. -/
theorem urgentTodayCandidates_type (today : Nat) (acts : List ActionRow)
    (c : AlertData) (hc : c ∈ urgentTodayCandidates today acts) :
    c.type = "action_urgent" := by
  obtain ⟨b, _, rfl⟩ := List.mem_map.mp hc
  rfl

/-- Problems-pass candidate types. -/
theorem problemCandidates_type (now : Int) (ps : List Problem) (c : AlertData)
    (hc : c ∈ problemCandidates now ps) :
    c.type = "problem_critical" ∨ c.type = "problem_unresolved" := by
  obtain ⟨p, _, rfl⟩ := List.mem_map.mp hc
  unfold mkProblemAlert
  by_cases h : 3 < daysSinceCreation now p.created_at
  · right
    simp [h]
  · left
    simp [h]

/-- Every candidate type emitted by the run is free of the key separator. -/
theorem candidateAlerts_type_noDash (fl : Failures) (now : Int) (today : Nat)
    (st : Store) (c : AlertData) (hc : c ∈ candidateAlerts fl now today st) :
    noDash c.type := by
  unfold candidateAlerts at hc
  rcases List.mem_append.mp hc with h | h
  · rcases List.mem_append.mp h with h2 | h2
    · rcases List.mem_append.mp h2 with h3 | h3
      · split at h3
        · cases h3
        · rcases kpiCandidatesOf_type _ _ (List.mem_flatMap.mp h3).choose_spec.2 with
            ht | ht | ht <;> · rw [ht]; unfold noDash; decide
      · split at h3
        · cases h3
        · rw [overdueCandidates_type today st.actions c h3]
          unfold noDash
          decide
    · split at h2
      · cases h2
      · rw [urgentTodayCandidates_type today st.actions c h2]
        unfold noDash
        decide
  · split at h
    · cases h
    · rcases problemCandidates_type now st.problems c h with ht | ht <;>
        · rw [ht]; unfold noDash; decide

/-- Distinct (type, rendered id) pairs give distinct keys when types are
separator-free. -/
theorem nodup_keys_of_nodup_pairs (l : List AlertData)
    (ht : ∀ c ∈ l, noDash c.type)
    (h : (l.map candPair).Nodup) : (l.map candKey).Nodup := by
  have hmap : l.map candKey = (l.map candPair).map (fun p => p.1 ++ "-" ++ p.2) := by
    rw [List.map_map]
    rfl
  rw [hmap]
  apply (List.nodup_map_iff_inj_on h).mpr
  intro x hx y hy hxy
  obtain ⟨cx, hcx, rfl⟩ := List.mem_map.mp hx
  obtain ⟨cy, hcy, rfl⟩ := List.mem_map.mp hy
  obtain ⟨h1, h2⟩ := alertKey_inj cx.type cy.type cx.related_id cy.related_id
    (ht cx hcx) (ht cy hcy) hxy
  unfold candPair
  rw [h1, h2]

/-- Pairs of one kept reading are pairwise distinct (distinct types). -/
theorem nodup_pairs_kpiCandidatesOf (v : KpiValue) :
    ((kpiCandidatesOf v).map candPair).Nodup := by
  unfold kpiCandidatesOf
  cases hv : v.kpi with
  | none => exact List.nodup_nil
  | some kpi =>
    split_ifs <;>
      simp [candPair, mkKpiCritical, mkKpiWarning, mkKpiTrend]

/-- The rendered id of a KPI-pass pair is the reading's KPI id. -/
theorem kpiCandidatesOf_pair_snd (v : KpiValue) (c : AlertData)
    (hc : c ∈ kpiCandidatesOf v) : (candPair c).2 = v.kpi_id := by
  have hr := kpiCandidatesOf_related_id v c hc
  unfold candPair
  rw [hr]
  rfl

/-- Pairs over the whole KPI pass are distinct when the kept readings have
pairwise distinct KPI ids. -/
theorem nodup_pairs_kpi_flatMap (ws : List KpiValue)
    (hnd : (ws.map KpiValue.kpi_id).Nodup) :
    ((ws.flatMap kpiCandidatesOf).map candPair).Nodup := by
  induction ws with
  | nil => exact List.nodup_nil
  | cons w rest ih =>
    rw [List.flatMap_cons, List.map_append, List.nodup_append]
    rw [List.map_cons, List.nodup_cons] at hnd
    obtain ⟨hw, hrest⟩ := hnd
    refine ⟨nodup_pairs_kpiCandidatesOf w, ih hrest, ?_⟩
    intro p hp1 hp2
    obtain ⟨c1, hc1, rfl⟩ := List.mem_map.mp hp1
    obtain ⟨c2, hc2, he⟩ := List.mem_map.mp hp2
    obtain ⟨u, hu, hcu⟩ := List.mem_flatMap.mp hc2
    have hs1 : (candPair c1).2 = w.kpi_id := kpiCandidatesOf_pair_snd w c1 hc1
    have hs2 : (candPair c2).2 = u.kpi_id := kpiCandidatesOf_pair_snd u c2 hcu
    rw [he] at hs2
    apply hw
    rw [← hs1, hs2]
    exact List.mem_map_of_mem KpiValue.kpi_id hu

/-- First-wins keeps pairwise distinct ids, none of them already seen. -/
theorem firstWins_ids (vs : List KpiValue) (seen : List String) :
    ((firstWins vs seen).map KpiValue.kpi_id).Nodup ∧
    ∀ v ∈ firstWins vs seen, v.kpi_id ∉ seen := by
  induction vs generalizing seen with
  | nil =>
    refine ⟨List.nodup_nil, ?_⟩
    intro v hv
    cases hv
  | cons v rest ih =>
    unfold firstWins
    by_cases h : v.kpi_id ∈ seen
    · rw [if_pos h]
      exact ih seen
    · rw [if_neg h]
      obtain ⟨ihn, ihm⟩ := ih (v.kpi_id :: seen)
      refine ⟨?_, ?_⟩
      · rw [List.map_cons, List.nodup_cons]
        refine ⟨?_, ihn⟩
        intro hmem
        obtain ⟨w, hw, hwe⟩ := List.mem_map.mp hmem
        exact ihm w hw (hwe ▸ List.mem_cons_self _ _)
      · intro u hu
        rcases List.mem_cons.mp hu with rfl | hu2
        · exact h
        · intro hus
          exact ihm u hu2 (List.mem_cons_of_mem _ hus)

/-- Overdue-pass pairs are distinct under pairwise distinct action ids. -/
theorem nodup_pairs_overdue (today : Nat) (acts : List ActionRow)
    (hid : (acts.map ActionRow.id).Nodup) :
    ((overdueCandidates today acts).map candPair).Nodup := by
  unfold overdueCandidates
  rw [List.map_map]
  have hf : (acts.filter
      (fun a => decide (a.due_date < today) && (a.status != "completed"))).Nodup :=
    (List.Nodup.of_map ActionRow.id hid).filter _
  apply (List.nodup_map_iff_inj_on hf).mpr
  intro x hx y hy hxy
  have hxa : x ∈ acts := List.mem_of_mem_filter hx
  have hya : y ∈ acts := List.mem_of_mem_filter hy
  have hids : x.id = y.id := congrArg Prod.snd hxy
  exact List.inj_on_of_nodup_map hid hxa hya hids

/-- Urgent-today-pass pairs are distinct under pairwise distinct ids. -/
theorem nodup_pairs_urgent (today : Nat) (acts : List ActionRow)
    (hid : (acts.map ActionRow.id).Nodup) :
    ((urgentTodayCandidates today acts).map candPair).Nodup := by
  unfold urgentTodayCandidates
  rw [List.map_map]
  have hf : (acts.filter (fun a =>
      (a.due_date == today) && (a.priority == "urgent" || a.priority == "high") &&
      (a.status != "completed"))).Nodup :=
    (List.Nodup.of_map ActionRow.id hid).filter _
  apply (List.nodup_map_iff_inj_on hf).mpr
  intro x hx y hy hxy
  have hxa : x ∈ acts := List.mem_of_mem_filter hx
  have hya : y ∈ acts := List.mem_of_mem_filter hy
  have hids : x.id = y.id := congrArg Prod.snd hxy
  exact List.inj_on_of_nodup_map hid hxa hya hids

/-- Problems-pass pairs are distinct under pairwise distinct problem ids. -/
theorem nodup_pairs_problems (now : Int) (ps : List Problem)
    (hid : (ps.map Problem.id).Nodup) :
    ((problemCandidates now ps).map candPair).Nodup := by
  unfold problemCandidates
  rw [List.map_map]
  have hf : (ps.filter (fun p =>
      (p.severity == "critical" || p.severity == "high") &&
      (p.status != "resolved"))).Nodup :=
    (List.Nodup.of_map Problem.id hid).filter _
  apply (List.nodup_map_iff_inj_on hf).mpr
  intro x hx y hy hxy
  have hxa : x ∈ ps := List.mem_of_mem_filter hx
  have hya : y ∈ ps := List.mem_of_mem_filter hy
  have hids : x.id = y.id := congrArg Prod.snd hxy
  exact List.inj_on_of_nodup_map hid hxa hya hids

/-- Candidate lists whose types never coincide have disjoint pairs. -/
theorem pairs_disjoint_of_types (l1 l2 : List AlertData)
    (h : ∀ c1 ∈ l1, ∀ c2 ∈ l2, c1.type ≠ c2.type) :
    List.Disjoint (l1.map candPair) (l2.map candPair) := by
  intro p hp1 hp2
  obtain ⟨c1, hc1, rfl⟩ := List.mem_map.mp hp1
  obtain ⟨c2, hc2, he⟩ := List.mem_map.mp hp2
  exact h c1 hc1 c2 hc2 (congrArg Prod.fst he).symm

/-- All candidate pairs of a fully successful run are pairwise distinct,
given pairwise distinct action ids and problem ids. -/
theorem nodup_candidate_pairs (now : Int) (today : Nat) (st : Store)
    (hact : (st.actions.map ActionRow.id).Nodup)
    (hprob : (st.problems.map Problem.id).Nodup) :
    ((candidateAlerts noFail now today st).map candPair).Nodup := by
  show ((kpiCandidates st.kpi_values ++ overdueCandidates today st.actions ++
    urgentTodayCandidates today st.actions ++
    problemCandidates now st.problems).map candPair).Nodup
  have hK : ((kpiCandidates st.kpi_values).map candPair).Nodup := by
    unfold kpiCandidates
    exact nodup_pairs_kpi_flatMap _ (firstWins_ids st.kpi_values []).1
  have hO := nodup_pairs_overdue today st.actions hact
  have hU := nodup_pairs_urgent today st.actions hact
  have hP := nodup_pairs_problems now st.problems hprob
  have hKO : List.Disjoint ((kpiCandidates st.kpi_values).map candPair)
      ((overdueCandidates today st.actions).map candPair) := by
    apply pairs_disjoint_of_types
    intro c1 h1 c2 h2
    obtain ⟨u, _, hcu⟩ := List.mem_flatMap.mp h1
    rcases kpiCandidatesOf_type u c1 hcu with ht | ht | ht <;>
      rw [ht, overdueCandidates_type today st.actions c2 h2] <;> decide
  have hKU : List.Disjoint ((kpiCandidates st.kpi_values).map candPair)
      ((urgentTodayCandidates today st.actions).map candPair) := by
    apply pairs_disjoint_of_types
    intro c1 h1 c2 h2
    obtain ⟨u, _, hcu⟩ := List.mem_flatMap.mp h1
    rcases kpiCandidatesOf_type u c1 hcu with ht | ht | ht <;>
      rw [ht, urgentTodayCandidates_type today st.actions c2 h2] <;> decide
  have hKP : List.Disjoint ((kpiCandidates st.kpi_values).map candPair)
      ((problemCandidates now st.problems).map candPair) := by
    apply pairs_disjoint_of_types
    intro c1 h1 c2 h2
    obtain ⟨u, _, hcu⟩ := List.mem_flatMap.mp h1
    rcases kpiCandidatesOf_type u c1 hcu with ht | ht | ht <;>
      rcases problemCandidates_type now st.problems c2 h2 with ht2 | ht2 <;>
      rw [ht, ht2] <;> decide
  have hOU : List.Disjoint ((overdueCandidates today st.actions).map candPair)
      ((urgentTodayCandidates today st.actions).map candPair) := by
    apply pairs_disjoint_of_types
    intro c1 h1 c2 h2
    rw [overdueCandidates_type today st.actions c1 h1,
      urgentTodayCandidates_type today st.actions c2 h2]
    decide
  have hOP : List.Disjoint ((overdueCandidates today st.actions).map candPair)
      ((problemCandidates now st.problems).map candPair) := by
    apply pairs_disjoint_of_types
    intro c1 h1 c2 h2
    rcases problemCandidates_type now st.problems c2 h2 with ht2 | ht2 <;>
      rw [overdueCandidates_type today st.actions c1 h1, ht2] <;> decide
  have hUP : List.Disjoint ((urgentTodayCandidates today st.actions).map candPair)
      ((problemCandidates now st.problems).map candPair) := by
    apply pairs_disjoint_of_types
    intro c1 h1 c2 h2
    rcases problemCandidates_type now st.problems c2 h2 with ht2 | ht2 <;>
      rw [urgentTodayCandidates_type today st.actions c1 h1, ht2] <;> decide
  rw [List.map_append, List.map_append, List.map_append]
  rw [List.nodup_append, List.nodup_append, List.nodup_append]
  refine ⟨⟨⟨hK, hO, hKO⟩, hU, ?_⟩, hP, ?_⟩
  · rw [List.disjoint_append_left]
    exact ⟨hKU, hOU⟩
  · rw [List.disjoint_append_left, List.disjoint_append_left]
    exact ⟨⟨hKP, hOP⟩, hUP⟩

/-- All candidate keys of a fully successful run are pairwise distinct. -/
theorem nodup_candidate_keys (now : Int) (today : Nat) (st : Store)
    (hact : (st.actions.map ActionRow.id).Nodup)
    (hprob : (st.problems.map Problem.id).Nodup) :
    ((candidateAlerts noFail now today st).map candKey).Nodup :=
  nodup_keys_of_nodup_pairs _
    (fun c hc => candidateAlerts_type_noDash noFail now today st c hc)
    (nodup_candidate_pairs now today st hact hprob)

/-- The sweep only removes unread keys. -/
theorem unreadKeysOf_sweep_sublist (now : Int) (l : List AlertRow) :
    (unreadKeysOf (retentionSweep now l)).Sublist (unreadKeysOf l) := by
  unfold unreadKeysOf retentionSweep
  exact List.Sublist.map rowKey (List.Sublist.filter _ (List.filter_sublist l))

/-- A fully successful run preserves the at-most-one-unread-alert-per-key
invariant, given pairwise distinct action ids and problem ids. -/
theorem run_preserves_unread_unique (now : Int) (today : Nat) (st : Store)
    (hact : (st.actions.map ActionRow.id).Nodup)
    (hprob : (st.problems.map Problem.id).Nodup)
    (hinv : unreadUnique st.smart_alerts) :
    unreadUnique ((generateAlerts noFail now today st).2).smart_alerts := by
  rw [generateAlerts_store_ok noFail now today st rfl]
  show (unreadKeysOf (sweptAlertsOf noFail now st ++
    (newAlertsOf noFail now today st).map (rowOf now))).Nodup
  rw [unreadKeysOf_append, unreadKeysOf_rowOf, List.nodup_append]
  refine ⟨?_, ?_, ?_⟩
  · exact (unreadKeysOf_sweep_sublist now st.smart_alerts).nodup hinv
  · have hsub : (newAlertsOf noFail now today st).Sublist
        (candidateAlerts noFail now today st) := List.filter_sublist _
    exact (hsub.map candKey).nodup (nodup_candidate_keys now today st hact hprob)
  · intro k hk1 hk2
    obtain ⟨c, hc, rfl⟩ := List.mem_map.mp hk2
    have hcf := List.mem_filter.mp hc
    have hcont := hcf.2
    rw [Bool.not_eq_eq_eq_not, Bool.not_true, Bool.eq_false_iff] at hcont
    exact hcont (List.elem_iff.mpr hk1)

/-- C3: for every store state (all reads succeeding, distinct action and
problem ids, invariant holding initially), a second run immediately after a
first one with no state change creates zero new alerts — every candidate
key already names an unread alert and is dropped by deduplication — and the
first run preserves the at-most-one-unread-alert-per-(type, related id)
invariant. -/
theorem generator_idempotent_and_unique (now : Int) (today : Nat) (st : Store)
    (hact : (st.actions.map ActionRow.id).Nodup)
    (hprob : (st.problems.map Problem.id).Nodup)
    (hinv : unreadUnique st.smart_alerts) :
    newAlertsCreatedOf
      (generateAlerts noFail now today
        ((generateAlerts noFail now today st).2)).1 = some 0 ∧
    unreadUnique ((generateAlerts noFail now today st).2).smart_alerts := by
  constructor
  · rw [generateAlerts_resp_ok _ _ _ _ rfl]
    unfold newAlertsCreatedOf
    rw [second_run_no_new now today st]
    rfl
  · exact run_preserves_unread_unique now today st hact hprob hinv

/-- C3 witness: idempotence and the invariant exercised on the example
store covering all passes. -/
theorem generator_idempotent_and_unique_witness :
    newAlertsCreatedOf
      (generateAlerts noFail exNow 10
        ((generateAlerts noFail exNow 10 exStore).2)).1 = some 0 ∧
    unreadUnique ((generateAlerts noFail exNow 10 exStore).2).smart_alerts :=
  generator_idempotent_and_unique exNow 10 exStore (by decide) (by decide)
    (by unfold unreadUnique; decide)
